import Mathlib

/-
A shallow embedding of drivers/dma-buf/dma-buf.c (the shared-buffer core).

The buffer-sharing core is modelled as pure Lean functions over explicit
state.  Producer ("exporter") and consumer ("importer") hooks are external
code; each hook is represented by the outcome it produces when invoked
(an `Option` field: `none` means the hook is absent).  Every externally
visible action a function performs (invoking a hook, waiting on the
reservation object) is recorded in a trace of `Event`s, so theorems can
speak about what was invoked and in which circumstances.

The reservation object (struct dma_resv, the spec's SyncSet) and the
dma_fence primitives live outside the source file under scrutiny; those
parts are modelled from the specification and are marked as such.
-/

namespace DmabufSpec

/-- Error number EINVAL (invalid argument). -/
def EINVAL : Int := 22

/-- Error number ENOMEM (resource exhaustion). -/
def ENOMEM : Int := 12

/-- Error number ENOENT. -/
def ENOENT : Int := 2

/-- Error number EOVERFLOW (arithmetic overflow), distinct from EINVAL. -/
def EOVERFLOW : Int := 75

/-- Page shift of the machine; PAGE_SIZE = 2 ^ PAGE_SHIFT = 4096. -/
def PAGE_SHIFT : Nat := 12

def PAGE_SIZE : Nat := 2 ^ PAGE_SHIFT

/-- Bit for write synchronization in the sync-file uapi flags. -/
def DMA_BUF_SYNC_WRITE : Nat := 2

/-- Mask of the read and write synchronization bits (read = 1, write = 2). -/
def DMA_BUF_SYNC_RW : Nat := 3

/-- Width of the C unsigned long (64-bit kernel). -/
def ULONG_WIDTH : Nat := 64

inductive dma_data_direction
  | bidirectional
  | to_device
  | from_device
  | none_dir
deriving DecidableEq, Repr

/-- Modelled from the spec: usage classes of the SyncSet (dma_resv) fences.
dma-resv is not under src/; the spec's SyncSet tags fences read or
read-write ("write"), and the kernel-internal class exists below both. -/
inductive dma_resv_usage
  | kernel
  | write
  | read
  | bookkeep
deriving DecidableEq, Repr

/-- Modelled from the spec: the usage classes are linearly ordered; an
operation at usage u covers every fence whose tag is at or below u. -/
def dma_resv_usage.level : dma_resv_usage → Nat
  | .kernel => 0
  | .write => 1
  | .read => 2
  | .bookkeep => 3

/-- Modelled from the spec: whether a fence tagged `tag` is covered by an
operation (wait / query) performed at usage `u`. -/
def usage_matches (tag u : dma_resv_usage) : Bool :=
  tag.level ≤ u.level

/-- Modelled from the spec: map an access direction to the usage a waiter
must use.  A writer must wait for existing readers and writers (read
usage covers all fences); a reader need only wait for writers. -/
def dma_resv_usage_rw (write : Bool) : dma_resv_usage :=
  if write then .read else .write

/-- Modelled from the spec: a fence, a token for one pending asynchronous
operation; `signaled` records whether it has already completed. -/
structure dma_fence where
  id : Nat
  signaled : Bool
deriving DecidableEq, Repr

/-- Modelled from the spec: a fence held in a SyncSet together with its
usage tag. -/
structure resv_fence where
  fence : dma_fence
  usage : dma_resv_usage
deriving DecidableEq, Repr

/-- Modelled from the spec: the per-buffer SyncSet (struct dma_resv):
outstanding fences tagged by usage, plus the capacity reserved by the
reserve-then-commit protocol. -/
structure dma_resv where
  num_reserved : Nat
  fences : List resv_fence
deriving DecidableEq, Repr

/-- Modelled from the spec: fences of a SyncSet relevant to usage u. -/
def relevant_fences (resv : dma_resv) (u : dma_resv_usage) : List resv_fence :=
  resv.fences.filter (fun rf => usage_matches rf.usage u)

/-- Modelled from the spec: dma_resv_wait_timeout blocks until every fence
relevant to `u` completes or the wait is interrupted / times out.  If no
relevant fence is outstanding it returns success immediately (result 1,
independent of the environment); otherwise the result is supplied by the
environment parameter `outcome` (negative = interrupted / error,
nonnegative = all relevant fences completed). -/
def dma_resv_wait_timeout (resv : dma_resv) (u : dma_resv_usage)
    (intr : Bool) (outcome : Int) : Int :=
  if (relevant_fences resv u).all (fun rf => rf.fence.signaled) then 1
  else outcome

/-- Modelled from the spec: reserve capacity for n more fences.  On
allocation failure (`alloc_ok = false`) the set is left unchanged and
-ENOMEM is returned. -/
def dma_resv_reserve_fences (resv : dma_resv) (n : Nat) (alloc_ok : Bool) :
    Int × dma_resv :=
  if alloc_ok then (0, { resv with num_reserved := resv.num_reserved + n })
  else (-ENOMEM, resv)

/-- Modelled from the spec: append one fence tagged `u`, consuming one
reserved slot. -/
def dma_resv_add_fence (resv : dma_resv) (f : dma_fence) (u : dma_resv_usage) :
    dma_resv :=
  { num_reserved := resv.num_reserved - 1
  , fences := resv.fences ++ [{ fence := f, usage := u }] }

/-- Externally observable actions of the core, recorded in traces. -/
inductive Event
  | resv_wait (u : dma_resv_usage) (intr : Bool) (unbounded : Bool)
  | hook_begin_cpu_access
  | hook_end_cpu_access
  | hook_pin
  | hook_unpin
  | hook_map
  | hook_unmap
  | hook_move_notify (attach_id : Nat)
  | hook_mmap
  | hook_vmap
  | hook_vunmap
  | list_add
deriving DecidableEq, Repr

/-- One entry of a scatterlist as the core sees it: a device address and a
length. -/
structure sg_entry where
  dma_address : Nat
  dma_length : Nat
deriving DecidableEq, Repr

/-- A scatterlist table returned by the exporter's map hook. -/
structure sg_table where
  segs : List sg_entry
deriving DecidableEq, Repr

/-- Outcome of the exporter's map_dma_buf hook: a scatterlist table, NULL
(turned into -ENOMEM by the core), or an ERR_PTR-encoded error. -/
inductive map_hook_result
  | table (t : sg_table)
  | null
  | err (e : Int)
deriving DecidableEq, Repr

/-- Outcome of the exporter's vmap hook: a set kernel map on success, or a
negative error code. -/
inductive vmap_hook_result
  | ok (p : Nat)
  | err (e : Int)
deriving DecidableEq, Repr

/-- The exporter's operation table (struct dma_buf_ops).  Each optional
hook is `none` when the exporter does not supply it; a present hook is
represented by the outcome it produces when invoked.  Hooks returning
void are represented by a presence Bool. -/
structure dma_buf_ops where
  map_dma_buf : Option map_hook_result
  unmap_dma_buf : Bool
  release : Bool
  pin : Option Int
  unpin : Bool
  begin_cpu_access : Option Int
  end_cpu_access : Option Int
  mmap : Option Int
  vmap : Option vmap_hook_result
  vunmap : Bool
deriving DecidableEq, Repr

/-- An attachment (struct dma_buf_attachment).  `importer_ops` records
whether importer operations were supplied (the attachment is dynamic
exactly when they were).  The owning buffer is passed alongside wherever
the C code follows attach->dmabuf. -/
structure dma_buf_attachment where
  id : Nat
  importer_ops : Bool
deriving DecidableEq, Repr

/-- The shared buffer (struct dma_buf): the fields the modelled operations
read or write. -/
structure dma_buf where
  size : Nat
  ops : dma_buf_ops
  resv : dma_resv
  attachments : List dma_buf_attachment
  vmapping_counter : Nat
  vmap_ptr : Option Nat
deriving DecidableEq, Repr

def dma_buf_attachment_is_dynamic (attach : dma_buf_attachment) : Bool :=
  attach.importer_ops

/-- dma_buf_pin_on_map: map pins implicitly when the exporter supports pin
and either the attachment is static or move notification is compiled out
(`cfg_move_notify` stands for IS_ENABLED(CONFIG_DMABUF_MOVE_NOTIFY)). -/
def dma_buf_pin_on_map (dmabuf : dma_buf) (attach : dma_buf_attachment)
    (cfg_move_notify : Bool) : Bool :=
  dmabuf.ops.pin.isSome &&
    (!dma_buf_attachment_is_dynamic attach || !cfg_move_notify)

/-- mangle_sg_table only XORs struct-page link bits (and only under
CONFIG_DMABUF_DEBUG); the device addresses and lengths the model tracks
are unchanged. -/
def mangle_sg_table (t : sg_table) : sg_table := t

/-- Direction-to-write translation of __dma_buf_begin_cpu_access:
bool write = (direction == DMA_BIDIRECTIONAL || direction == DMA_TO_DEVICE). -/
def access_is_write (direction : dma_data_direction) : Bool :=
  direction == dma_data_direction.bidirectional ||
  direction == dma_data_direction.to_device

/-- __dma_buf_begin_cpu_access: wait on all fences relevant to the access
direction (read waits at write usage, write/bidirectional at read usage),
interruptible, unbounded timeout.  `wait_outcome` is the environment's
result for a wait that actually has outstanding fences. -/
def __dma_buf_begin_cpu_access (dmabuf : dma_buf)
    (direction : dma_data_direction) (wait_outcome : Int) : Int × List Event :=
  let ret := dma_resv_wait_timeout dmabuf.resv
               (dma_resv_usage_rw (access_is_write direction)) true wait_outcome
  (if ret < 0 then ret else 0,
   [Event.resv_wait (dma_resv_usage_rw (access_is_write direction)) true true])

/-- dma_buf_begin_cpu_access: invoke the exporter's begin hook if present;
when it succeeds (or is absent, ret stays 0) additionally wait on the
fences relevant to the direction. -/
def dma_buf_begin_cpu_access (dmabuf : dma_buf)
    (direction : dma_data_direction) (wait_outcome : Int) : Int × List Event :=
  match dmabuf.ops.begin_cpu_access with
  | none =>
    let w := __dma_buf_begin_cpu_access dmabuf direction wait_outcome
    (w.1, w.2)
  | some r =>
    if r = 0 then
      let w := __dma_buf_begin_cpu_access dmabuf direction wait_outcome
      (w.1, Event.hook_begin_cpu_access :: w.2)
    else (r, [Event.hook_begin_cpu_access])

/-- dma_buf_end_cpu_access: invoke the exporter's end hook if present; no
fence wait. -/
def dma_buf_end_cpu_access (dmabuf : dma_buf)
    (direction : dma_data_direction) : Int × List Event :=
  match dmabuf.ops.end_cpu_access with
  | none => (0, [])
  | some r => (r, [Event.hook_end_cpu_access])

/-- dma_buf_map_attachment.  Result `none` stands for invoking a missing
mandatory hook (impossible for a buffer that passed dma_buf_export
validation).  Otherwise returns the scatterlist or the error, together
with the trace of hook invocations and reservation waits.  `direction`
is only forwarded to the exporter hook, whose outcome is part of `ops`. -/
def dma_buf_map_attachment (dmabuf : dma_buf) (attach : dma_buf_attachment)
    (direction : dma_data_direction) (cfg_move_notify : Bool)
    (wait_outcome : Int) : Option (Except Int sg_table × List Event) :=
  let pom := dma_buf_pin_on_map dmabuf attach cfg_move_notify
  let pin_ret : Int := if pom then dmabuf.ops.pin.getD 0 else 0
  let ev0 : List Event := if pom then [Event.hook_pin] else []
  if pin_ret ≠ 0 then some (Except.error pin_ret, ev0)
  else
    match dmabuf.ops.map_dma_buf with
    | none => none
    | some (map_hook_result.null) =>
        some (Except.error (-ENOMEM),
          ev0 ++ [Event.hook_map] ++ (if pom then [Event.hook_unpin] else []))
    | some (map_hook_result.err e) =>
        some (Except.error e,
          ev0 ++ [Event.hook_map] ++ (if pom then [Event.hook_unpin] else []))
    | some (map_hook_result.table t) =>
        if dma_buf_attachment_is_dynamic attach then
          some (Except.ok (mangle_sg_table t), ev0 ++ [Event.hook_map])
        else
          let wret := dma_resv_wait_timeout dmabuf.resv dma_resv_usage.kernel
                        true wait_outcome
          let ev1 := ev0 ++ [Event.hook_map] ++
                     [Event.resv_wait dma_resv_usage.kernel true true]
          if wret < 0 then
            if dmabuf.ops.unmap_dma_buf then
              some (Except.error wret,
                ev1 ++ [Event.hook_unmap] ++
                  (if pom then [Event.hook_unpin] else []))
            else none
          else
            some (Except.ok (mangle_sg_table t), ev1)

/-- dma_buf_move_notify's loop over the attachment list: every attachment
with importer operations gets its move_notify callback invoked. -/
def move_notify_loop : List dma_buf_attachment → List Event
  | [] => []
  | a :: rest =>
      (if a.importer_ops then [Event.hook_move_notify a.id] else []) ++
        move_notify_loop rest

/-- dma_buf_move_notify: returns the trace of importer callbacks invoked. -/
def dma_buf_move_notify (dmabuf : dma_buf) : List Event :=
  move_notify_loop dmabuf.attachments

/-- One armed-callback slot of the EventWaiter (struct dma_buf_poll_cb_t).
`active` mirrors dcb->active (nonzero while a wakeup for that direction
is owed); `armed` is the ghost count of fence callbacks registered and
not yet fired, the quantity the single-armed-callback invariant bounds. -/
structure dma_buf_poll_cb_t where
  active : Bool
  armed : Nat
deriving DecidableEq, Repr

/-- The two per-direction slots of a buffer (dmabuf->cb_in / cb_out). -/
structure poll_state where
  cb_in : dma_buf_poll_cb_t
  cb_out : dma_buf_poll_cb_t
deriving DecidableEq, Repr

/-- One direction of dma_buf_poll: if the slot is already active the
direction is reported not ready and nothing is armed; otherwise the slot
becomes active and, when an unsignaled fence exists (`fences_pending`,
i.e. dma_buf_poll_add_cb attached a callback), a callback is armed and
not-ready is reported; with no fence outstanding dma_buf_poll_cb runs
inline, the slot is released and ready is reported. -/
def dma_buf_poll_dir (dcb : dma_buf_poll_cb_t) (fences_pending : Bool) :
    Bool × dma_buf_poll_cb_t :=
  if dcb.active then (false, dcb)
  else if fences_pending then
    (false, { active := true, armed := dcb.armed + 1 })
  else (true, { active := false, armed := dcb.armed })

/-- dma_buf_poll over both directions: `req_in` / `req_out` say which
readiness events were requested (EPOLLIN / EPOLLOUT); the result is the
pair (in ready, out ready) and the new slot states. -/
def dma_buf_poll (st : poll_state) (req_in req_out : Bool)
    (in_pending out_pending : Bool) : (Bool × Bool) × poll_state :=
  let o := if req_out then dma_buf_poll_dir st.cb_out out_pending
           else (false, st.cb_out)
  let i := if req_in then dma_buf_poll_dir st.cb_in in_pending
           else (false, st.cb_in)
  ((i.1, o.1), { cb_in := i.2, cb_out := o.2 })

/-- dma_buf_poll_cb: the fence callback fires, wakes the waiters and
releases the slot. -/
def dma_buf_poll_cb (dcb : dma_buf_poll_cb_t) : dma_buf_poll_cb_t :=
  { active := false, armed := dcb.armed - 1 }

/-- Transitions of a buffer's EventWaiter state: a poll call (the slot
updates happen under the reservation lock and the poll spinlock, so each
call is one atomic transition), or an armed callback firing. -/
inductive poll_step : poll_state → poll_state → Prop
  | poll (st : poll_state) (ri ro ip op : Bool) :
      poll_step st (dma_buf_poll st ri ro ip op).2
  | fire_in (st : poll_state) (h : 1 ≤ st.cb_in.armed) :
      poll_step st { st with cb_in := dma_buf_poll_cb st.cb_in }
  | fire_out (st : poll_state) (h : 1 ≤ st.cb_out.armed) :
      poll_step st { st with cb_out := dma_buf_poll_cb st.cb_out }

/-- Slot state of a freshly exported buffer (cb_in/out.active = 0). -/
def init_poll : poll_state :=
  { cb_in := { active := false, armed := 0 }
  , cb_out := { active := false, armed := 0 } }

/-- States reachable from the freshly exported buffer. -/
inductive poll_reachable : poll_state → Prop
  | init : poll_reachable init_poll
  | step {s s' : poll_state} :
      poll_reachable s → poll_step s s' → poll_reachable s'

/-- dma_buf_import_sync_file: validate the flags, unwrap the incoming
sync-file fence into its constituent fences (`unwrapped`, `none` when
sync_file_get_fence fails), then reserve capacity for all of them and,
only if reservation succeeded, add them all tagged with the requested
usage. -/
def dma_buf_import_sync_file (resv : dma_resv) (flags : Nat)
    (unwrapped : Option (List dma_fence)) (reserve_ok : Bool) :
    Int × dma_resv :=
  if flags &&& (2 ^ 32 - 1 - DMA_BUF_SYNC_RW) ≠ 0 then (-EINVAL, resv)
  else if flags &&& DMA_BUF_SYNC_RW = 0 then (-EINVAL, resv)
  else
    match unwrapped with
    | none => (-EINVAL, resv)
    | some fs =>
      let usage := if flags &&& DMA_BUF_SYNC_WRITE ≠ 0 then
                     dma_resv_usage.write
                   else dma_resv_usage.read
      let num_fences := fs.length
      if 0 < num_fences then
        let r := dma_resv_reserve_fences resv num_fences reserve_ok
        if r.1 = 0 then
          (0, fs.foldl (fun acc f => dma_resv_add_fence acc f usage) r.2)
        else (r.1, r.2)
      else (0, resv)

/-- The exporter-supplied creation record (struct dma_buf_export_info).
`priv` records that a private data pointer was supplied; `ops` is the
operation table pointer (none = NULL); `resv` an optional externally
owned reservation object. -/
structure dma_buf_export_info where
  priv : Bool
  ops : Option dma_buf_ops
  size : Nat
  resv : Option dma_resv
deriving DecidableEq, Repr

/-- dma_buf_export: validate the operation table (the three mandatory
hooks must be present and pin/unpin must be both present or both
absent), then take the module reference, allocate the anonymous file and
the buffer, set up statistics, and register the buffer in the global
list (Event.list_add).  `module_get_ok`, `getfile`, `kzalloc_ok` and
`stats_ret` are the outcomes of the fallible environment steps. -/
def dma_buf_export (exp_info : dma_buf_export_info) (module_get_ok : Bool)
    (getfile : Except Int Unit) (kzalloc_ok : Bool) (stats_ret : Int) :
    Except Int dma_buf × List Event :=
  match exp_info.ops with
  | none => (Except.error (-EINVAL), [])
  | some ops =>
    if !exp_info.priv || ops.map_dma_buf.isNone || !ops.unmap_dma_buf ||
       !ops.release then
      (Except.error (-EINVAL), [])
    else if ops.pin.isSome != ops.unpin then
      (Except.error (-EINVAL), [])
    else if !module_get_ok then (Except.error (-ENOENT), [])
    else
      match getfile with
      | Except.error e => (Except.error e, [])
      | Except.ok _ =>
        if !kzalloc_ok then (Except.error (-ENOMEM), [])
        else if stats_ret ≠ 0 then (Except.error stats_ret, [])
        else
          (Except.ok
            { size := exp_info.size
            , ops := ops
            , resv := exp_info.resv.getD { num_reserved := 0, fences := [] }
            , attachments := []
            , vmapping_counter := 0
            , vmap_ptr := none },
           [Event.list_add])

/-- dma_buf_mmap_internal (the file-operations mmap entry): reject files
that are not dma-buf files, exporters without an mmap hook, and requests
whose page offset plus page count (computed in unsigned long arithmetic)
exceeds the buffer size in pages; otherwise invoke the exporter hook. -/
def dma_buf_mmap_internal (dmabuf : dma_buf) (vm_pgoff vm_npages : Nat)
    (is_dma_buf_file : Bool) : Int × List Event :=
  if !is_dma_buf_file then (-EINVAL, [])
  else if dmabuf.ops.mmap.isNone then (-EINVAL, [])
  else if (vm_pgoff + vm_npages) % 2 ^ ULONG_WIDTH >
            dmabuf.size >>> PAGE_SHIFT then
    (-EINVAL, [])
  else (dmabuf.ops.mmap.getD 0, [Event.hook_mmap])

/-- dma_buf_mmap (the kernel API): reject exporters without an mmap hook,
then reject arithmetic overflow of pgoff + page count in unsigned long
arithmetic with -EOVERFLOW, then reject requests exceeding the buffer
size in pages, and otherwise adjust the vma and invoke the exporter
hook. -/
def dma_buf_mmap (dmabuf : dma_buf) (vm_npages : Nat) (pgoff : Nat) :
    Int × List Event :=
  if dmabuf.ops.mmap.isNone then (-EINVAL, [])
  else if (pgoff + vm_npages) % 2 ^ ULONG_WIDTH < pgoff then
    (-EOVERFLOW, [])
  else if (pgoff + vm_npages) % 2 ^ ULONG_WIDTH >
            dmabuf.size >>> PAGE_SHIFT then
    (-EINVAL, [])
  else (dmabuf.ops.mmap.getD 0, [Event.hook_mmap])

/-- dma_buf_vmap.  Result `none` marks a tripped kernel BUG_ON (stored
map null while the counter is positive, or set while it is zero), which
cannot happen on states satisfying the vmap invariant.  Otherwise the
result, the new buffer state and the hook trace are returned.  The
stored kernel map is `Option Nat` (a set iosys_map carries the address,
`none` is the cleared map); a successful vmap hook yields a set map. -/
def dma_buf_vmap (b : dma_buf) : Option (Except Int Nat × dma_buf × List Event) :=
  match b.ops.vmap with
  | none => some (Except.error (-EINVAL), b, [])
  | some hook =>
    if b.vmapping_counter ≠ 0 then
      match b.vmap_ptr with
      | none => none
      | some p =>
        some (Except.ok p,
          { b with vmapping_counter := b.vmapping_counter + 1 }, [])
    else
      match b.vmap_ptr with
      | some _ => none
      | none =>
        match hook with
        | vmap_hook_result.err e => some (Except.error e, b, [Event.hook_vmap])
        | vmap_hook_result.ok p =>
          some (Except.ok p,
            { b with vmap_ptr := some p, vmapping_counter := 1 },
            [Event.hook_vmap])

/-- dma_buf_vunmap.  Result `none` marks a tripped BUG_ON (null stored
map, zero counter, or a map argument different from the stored one).
The exporter vunmap hook runs, and the stored map is cleared, exactly
when the counter returns to zero. -/
def dma_buf_vunmap (b : dma_buf) (map : Nat) : Option (dma_buf × List Event) :=
  match b.vmap_ptr with
  | none => none
  | some p =>
    if b.vmapping_counter = 0 then none
    else if p ≠ map then none
    else if b.vmapping_counter - 1 = 0 then
      some ({ b with vmapping_counter := 0, vmap_ptr := none },
        if b.ops.vunmap then [Event.hook_vunmap] else [])
    else
      some ({ b with vmapping_counter := b.vmapping_counter - 1 }, [])

/-- The vmap bookkeeping invariant: the stored kernel map is set exactly
when the vmapping counter is positive. -/
def vmap_inv (b : dma_buf) : Prop :=
  b.vmap_ptr.isSome ↔ 0 < b.vmapping_counter

/-- Page-granular alignment of one scatterlist entry. -/
def sg_entry_aligned (s : sg_entry) : Bool :=
  s.dma_address % PAGE_SIZE = 0 && s.dma_length % PAGE_SIZE = 0

/-- Page-granular alignment of a whole scatterlist table. -/
def sg_table_page_aligned (t : sg_table) : Bool :=
  t.segs.all sg_entry_aligned

/-- Total byte length of a scatterlist table. -/
def sg_table_length (t : sg_table) : Nat :=
  (t.segs.map (fun s => s.dma_length)).sum

/-- A well-formed exporter operation table used by concrete instances:
all three mandatory hooks supplied, no pin/unpin, a map hook producing a
single page-aligned 4096-byte segment. -/
def ops_base : dma_buf_ops :=
  { map_dma_buf := some (map_hook_result.table
      { segs := [{ dma_address := 1048576, dma_length := 4096 }] })
  , unmap_dma_buf := true
  , release := true
  , pin := none
  , unpin := false
  , begin_cpu_access := none
  , end_cpu_access := none
  , mmap := some 0
  , vmap := some (vmap_hook_result.ok 4096)
  , vunmap := true }

/-- An empty reservation object. -/
def resv_empty : dma_resv := { num_reserved := 0, fences := [] }

/-- A freshly exported 4096-byte buffer with an empty fence set. -/
def buf_base : dma_buf :=
  { size := 4096
  , ops := ops_base
  , resv := resv_empty
  , attachments := []
  , vmapping_counter := 0
  , vmap_ptr := none }

/-- Helper: a return value computed as `ret < 0 ? ret : 0` equal to 0 means
the underlying result was nonnegative. -/
theorem if_lt_zero_eq_zero (x : Int) (h : (if x < 0 then x else (0 : Int)) = 0) :
    0 ≤ x := by
  split at h <;> omega

/-- C1: whenever dma_buf_begin_cpu_access returns success it has performed
the interruptible unbounded-timeout wait over exactly the fences relevant
to the direction (read-only access covers the write-usage fences and no
read-usage fence; write or bidirectional access covers all of them), and
that wait completed — for every exporter begin hook, present, absent or
no-op. -/
theorem c1_begin_cpu_access_waits_on_direction_fences
    (dmabuf : dma_buf) (direction : dma_data_direction) (wait_outcome : Int)
    (h : (dma_buf_begin_cpu_access dmabuf direction wait_outcome).1 = 0) :
    Event.resv_wait (dma_resv_usage_rw (access_is_write direction)) true true
        ∈ (dma_buf_begin_cpu_access dmabuf direction wait_outcome).2 ∧
    0 ≤ dma_resv_wait_timeout dmabuf.resv
          (dma_resv_usage_rw (access_is_write direction)) true wait_outcome ∧
    (∀ rf : resv_fence, rf.usage = dma_resv_usage.write →
        usage_matches rf.usage
          (dma_resv_usage_rw (access_is_write direction)) = true) ∧
    (access_is_write direction = false →
        ∀ rf : resv_fence, rf.usage = dma_resv_usage.read →
          usage_matches rf.usage
            (dma_resv_usage_rw (access_is_write direction)) = false) ∧
    (access_is_write direction = true →
        ∀ rf : resv_fence, rf.usage = dma_resv_usage.read →
          usage_matches rf.usage
            (dma_resv_usage_rw (access_is_write direction)) = true) := by
  have hdir1 : ∀ rf : resv_fence, rf.usage = dma_resv_usage.write →
      usage_matches rf.usage
        (dma_resv_usage_rw (access_is_write direction)) = true := by
    intro rf hrf
    rw [hrf]
    cases hw : access_is_write direction <;> decide
  have hdir2 : access_is_write direction = false →
      ∀ rf : resv_fence, rf.usage = dma_resv_usage.read →
        usage_matches rf.usage
          (dma_resv_usage_rw (access_is_write direction)) = false := by
    intro hw rf hrf
    rw [hrf, hw]
    decide
  have hdir3 : access_is_write direction = true →
      ∀ rf : resv_fence, rf.usage = dma_resv_usage.read →
        usage_matches rf.usage
          (dma_resv_usage_rw (access_is_write direction)) = true := by
    intro hw rf hrf
    rw [hrf, hw]
    decide
  unfold dma_buf_begin_cpu_access at h ⊢
  cases hb : dmabuf.ops.begin_cpu_access with
  | none =>
    rw [hb] at h
    refine ⟨by simp [__dma_buf_begin_cpu_access], ?_, hdir1, hdir2, hdir3⟩
    exact if_lt_zero_eq_zero _ h
  | some r =>
    rw [hb] at h
    by_cases hr : r = 0
    · subst hr
      refine ⟨by simp [__dma_buf_begin_cpu_access], ?_, hdir1, hdir2, hdir3⟩
      exact if_lt_zero_eq_zero _ h
    · exfalso
      apply hr
      have h' := h
      simp only [if_neg hr] at h'
      exact h'

/-- Witness for C1 at a concrete buffer (no begin hook, empty fence set)
and a read-only direction. -/
theorem c1_witness :
    (dma_buf_begin_cpu_access buf_base dma_data_direction.from_device 5).1 = 0 ∧
    (Event.resv_wait
        (dma_resv_usage_rw (access_is_write dma_data_direction.from_device))
        true true
      ∈ (dma_buf_begin_cpu_access buf_base dma_data_direction.from_device 5).2 ∧
    0 ≤ dma_resv_wait_timeout buf_base.resv
          (dma_resv_usage_rw (access_is_write dma_data_direction.from_device))
          true 5 ∧
    (∀ rf : resv_fence, rf.usage = dma_resv_usage.write →
        usage_matches rf.usage
          (dma_resv_usage_rw (access_is_write dma_data_direction.from_device))
          = true) ∧
    (access_is_write dma_data_direction.from_device = false →
        ∀ rf : resv_fence, rf.usage = dma_resv_usage.read →
          usage_matches rf.usage
            (dma_resv_usage_rw (access_is_write dma_data_direction.from_device))
            = false) ∧
    (access_is_write dma_data_direction.from_device = true →
        ∀ rf : resv_fence, rf.usage = dma_resv_usage.read →
          usage_matches rf.usage
            (dma_resv_usage_rw (access_is_write dma_data_direction.from_device))
            = true)) :=
  ⟨by decide,
   c1_begin_cpu_access_waits_on_direction_fences buf_base
     dma_data_direction.from_device 5 (by decide)⟩

/-- Helper: the move-notify loop never emits an event for an attachment id
absent from the list. -/
theorem move_notify_loop_count_of_not_mem (l : List dma_buf_attachment)
    (i : Nat) (h : i ∉ l.map dma_buf_attachment.id) :
    (move_notify_loop l).count (Event.hook_move_notify i) = 0 := by
  induction l with
  | nil => simp [move_notify_loop]
  | cons b l ih =>
    have hbi : b.id ≠ i := by
      intro he
      exact h (by simp [he])
    have hi : i ∉ l.map dma_buf_attachment.id := by
      intro hm
      exact h (by simp [hm])
    cases hb : b.importer_ops <;>
      simp [move_notify_loop, hb, List.count_cons, ih hi, hbi]

/-- Helper: with pairwise-distinct attachment ids, the move-notify loop
emits the callback of a listed attachment exactly once when it is
dynamic, never when it is static. -/
theorem move_notify_loop_count (l : List dma_buf_attachment)
    (hnd : (l.map dma_buf_attachment.id).Nodup)
    (a : dma_buf_attachment) (ha : a ∈ l) :
    (move_notify_loop l).count (Event.hook_move_notify a.id) =
      if a.importer_ops then 1 else 0 := by
  induction l with
  | nil => cases ha
  | cons b l ih =>
    rw [List.map_cons, List.nodup_cons] at hnd
    rcases List.mem_cons.mp ha with rfl | ha'
    · have h0 := move_notify_loop_count_of_not_mem l a.id hnd.1
      cases hb : a.importer_ops <;>
        simp [move_notify_loop, hb, List.count_cons, h0]
    · have hbi : b.id ≠ a.id := by
        intro he
        exact hnd.1 (he ▸ List.mem_map.mpr ⟨a, ha', rfl⟩)
      cases hb : b.importer_ops <;>
        simp [move_notify_loop, hb, List.count_cons, ih hnd.2 ha', hbi]

/-- C5: after dma_buf_move_notify returns, the move_notify importer
callback of every attachment in the buffer's list that has importer ops
(a dynamic attachment) has been invoked exactly once, and no static
attachment's callback is invoked (attachment identities are the distinct
list entries). -/
theorem c5_move_notify_every_dynamic_exactly_once (dmabuf : dma_buf)
    (hnd : (dmabuf.attachments.map dma_buf_attachment.id).Nodup)
    (a : dma_buf_attachment) (ha : a ∈ dmabuf.attachments) :
    (dma_buf_move_notify dmabuf).count (Event.hook_move_notify a.id) =
      if dma_buf_attachment_is_dynamic a then 1 else 0 :=
  move_notify_loop_count dmabuf.attachments hnd a ha

/-- A buffer with one dynamic and one static attachment. -/
def buf_two_attach : dma_buf :=
  { buf_base with attachments := [{ id := 1, importer_ops := true },
                                  { id := 2, importer_ops := false }] }

/-- Witness for C5 on a buffer holding one dynamic and one static
attachment: the dynamic one is notified exactly once. -/
theorem c5_witness :
    ((buf_two_attach.attachments.map dma_buf_attachment.id).Nodup ∧
     ({ id := 1, importer_ops := true } : dma_buf_attachment)
        ∈ buf_two_attach.attachments) ∧
    (dma_buf_move_notify buf_two_attach).count (Event.hook_move_notify 1) =
      if dma_buf_attachment_is_dynamic { id := 1, importer_ops := true }
      then 1 else 0 :=
  ⟨⟨by decide, by decide⟩,
   c5_move_notify_every_dynamic_exactly_once buf_two_attach (by decide)
     { id := 1, importer_ops := true } (by decide)⟩

/-- Helper: folding dma_resv_add_fence over a fence list appends exactly
those fences, tagged with the given usage, in order. -/
theorem add_fence_foldl_fences (fs : List dma_fence) (r : dma_resv)
    (u : dma_resv_usage) :
    (fs.foldl (fun acc f => dma_resv_add_fence acc f u) r).fences =
      r.fences ++ fs.map (fun f => { fence := f, usage := u }) := by
  induction fs generalizing r with
  | nil => simp
  | cons f fs ih =>
    rw [List.foldl_cons, ih]
    simp [dma_resv_add_fence]

/-- C6: with valid flags and a handle that unwraps to n >= 1 fences,
dma_buf_import_sync_file either reserves capacity for all n fences and
adds all of them tagged with the requested usage, or — when reservation
fails — adds none, returns the error and leaves the fence set
unchanged. -/
theorem c6_import_sync_file_all_or_none (resv : dma_resv) (flags : Nat)
    (fs : List dma_fence) (reserve_ok : Bool)
    (hflags : flags = 1 ∨ flags = 2 ∨ flags = 3) (hn : 1 ≤ fs.length) :
    (reserve_ok = true →
      (dma_buf_import_sync_file resv flags (some fs) reserve_ok).1 = 0 ∧
      (dma_buf_import_sync_file resv flags (some fs) reserve_ok).2.fences =
        resv.fences ++ fs.map (fun f =>
          { fence := f
          , usage := if flags &&& DMA_BUF_SYNC_WRITE ≠ 0 then
                       dma_resv_usage.write
                     else dma_resv_usage.read })) ∧
    (reserve_ok = false →
      dma_buf_import_sync_file resv flags (some fs) reserve_ok =
        (-ENOMEM, resv)) := by
  have hlen : 0 < fs.length := hn
  have ha1 : (1 : Nat) &&& 4294967292 = 0 := by decide
  have ha2 : (2 : Nat) &&& 4294967292 = 0 := by decide
  have ha3 : (3 : Nat) &&& 4294967292 = 0 := by decide
  have hb1 : (1 : Nat) &&& 3 = 1 := by decide
  have hb2 : (2 : Nat) &&& 3 = 2 := by decide
  have hb3 : (3 : Nat) &&& 3 = 3 := by decide
  have hc1 : (1 : Nat) &&& 2 = 0 := by decide
  have hc2 : (2 : Nat) &&& 2 = 2 := by decide
  have hc3 : (3 : Nat) &&& 2 = 2 := by decide
  rcases hflags with rfl | rfl | rfl <;>
    cases reserve_ok <;>
      refine ⟨fun hro => ?_, fun hro => ?_⟩ <;>
        simp_all [dma_buf_import_sync_file, dma_resv_reserve_fences,
                  DMA_BUF_SYNC_RW, DMA_BUF_SYNC_WRITE, ENOMEM,
                  add_fence_foldl_fences]

/-- Witness for C6: importing a one-fence sync file with read-write flags
into an empty reservation object, with reservation succeeding. -/
theorem c6_witness :
    ((3 : Nat) = 1 ∨ (3 : Nat) = 2 ∨ (3 : Nat) = 3) ∧
    1 ≤ ([{ id := 7, signaled := false }] : List dma_fence).length ∧
    ((true = true →
      (dma_buf_import_sync_file resv_empty 3
          (some [{ id := 7, signaled := false }]) true).1 = 0 ∧
      (dma_buf_import_sync_file resv_empty 3
          (some [{ id := 7, signaled := false }]) true).2.fences =
        resv_empty.fences ++
          ([{ id := 7, signaled := false }] : List dma_fence).map (fun f =>
            { fence := f
            , usage := if (3 : Nat) &&& DMA_BUF_SYNC_WRITE ≠ 0 then
                         dma_resv_usage.write
                       else dma_resv_usage.read })) ∧
    (true = false →
      dma_buf_import_sync_file resv_empty 3
          (some [{ id := 7, signaled := false }]) true = (-ENOMEM, resv_empty))) :=
  ⟨by decide, by decide,
   c6_import_sync_file_all_or_none resv_empty 3
     [{ id := 7, signaled := false }] true (by decide) (by decide)⟩

/-- C7: dma_buf_export rejects with -EINVAL an export record missing any
of the three mandatory producer operations (map, unmap, release) or
supplying exactly one of pin/unpin, and on such a validation failure no
buffer is created or registered (empty trace, no list_add). -/
theorem c7_export_rejects_invalid_ops (exp_info : dma_buf_export_info)
    (module_get_ok : Bool) (getfile : Except Int Unit) (kzalloc_ok : Bool)
    (stats_ret : Int)
    (h : exp_info.ops = none ∨ ∃ ops, exp_info.ops = some ops ∧
          (ops.map_dma_buf.isNone = true ∨ ops.unmap_dma_buf = false ∨
           ops.release = false ∨ ops.pin.isSome ≠ ops.unpin)) :
    dma_buf_export exp_info module_get_ok getfile kzalloc_ok stats_ret =
      (Except.error (-EINVAL), []) := by
  unfold dma_buf_export
  rcases h with hnone | ⟨ops, hsome, hcond⟩
  · rw [hnone]
  · rw [hsome]
    dsimp only
    by_cases h1 : (!exp_info.priv || ops.map_dma_buf.isNone ||
        !ops.unmap_dma_buf || !ops.release) = true
    · rw [if_pos h1]
    · rw [if_neg h1]
      have hpin : ops.pin.isSome ≠ ops.unpin := by
        rcases hcond with hc | hc | hc | hc
        · exact absurd (by simp [hc]) h1
        · exact absurd (by simp [hc]) h1
        · exact absurd (by simp [hc]) h1
        · exact hc
      have hpin' : (ops.pin.isSome != ops.unpin) = true := bne_iff_ne.mpr hpin
      rw [if_pos hpin']

/-- An export record whose operation table supplies pin without unpin. -/
def exp_info_pin_only : dma_buf_export_info :=
  { priv := true
  , ops := some { ops_base with pin := some 0, unpin := false }
  , size := 4096
  , resv := none }

/-- Witness for C7: exporting with pin supplied but unpin missing fails
with -EINVAL and registers nothing. -/
theorem c7_witness :
    (exp_info_pin_only.ops = none ∨ ∃ ops, exp_info_pin_only.ops = some ops ∧
      (ops.map_dma_buf.isNone = true ∨ ops.unmap_dma_buf = false ∨
       ops.release = false ∨ ops.pin.isSome ≠ ops.unpin)) ∧
    dma_buf_export exp_info_pin_only true (Except.ok ()) true 0 =
      (Except.error (-EINVAL), []) :=
  ⟨Or.inr ⟨{ ops_base with pin := some 0, unpin := false }, rfl,
     Or.inr (Or.inr (Or.inr (by decide)))⟩,
   c7_export_rejects_invalid_ops exp_info_pin_only true (Except.ok ()) true 0
     (Or.inr ⟨{ ops_base with pin := some 0, unpin := false }, rfl,
       Or.inr (Or.inr (Or.inr (by decide)))⟩)⟩

/-- C10: both mmap entry points reject, without invoking the exporter
mmap hook, a buffer whose exporter supplies no mmap hook (-EINVAL) and a
request whose page offset plus page count (no wraparound, as holds for
any kernel vma) exceeds the buffer size in pages (-EINVAL);
dma_buf_mmap additionally rejects wraparound of page offset plus page
count in unsigned long arithmetic with the distinct error -EOVERFLOW. -/
theorem c10_mmap_rejects_invalid :
    (∀ (d : dma_buf) (pgoff npages : Nat), d.ops.mmap = none →
      dma_buf_mmap_internal d pgoff npages true = (-EINVAL, []) ∧
      dma_buf_mmap d npages pgoff = (-EINVAL, [])) ∧
    (∀ (d : dma_buf) (pgoff npages : Nat), d.ops.mmap.isSome = true →
      pgoff + npages < 2 ^ ULONG_WIDTH →
      d.size >>> PAGE_SHIFT < pgoff + npages →
      dma_buf_mmap_internal d pgoff npages true = (-EINVAL, []) ∧
      dma_buf_mmap d npages pgoff = (-EINVAL, [])) ∧
    (∀ (d : dma_buf) (pgoff npages : Nat), d.ops.mmap.isSome = true →
      pgoff < 2 ^ ULONG_WIDTH → npages < 2 ^ ULONG_WIDTH →
      2 ^ ULONG_WIDTH ≤ pgoff + npages →
      dma_buf_mmap d npages pgoff = (-EOVERFLOW, [])) := by
  refine ⟨?_, ?_, ?_⟩
  · intro d pgoff npages h
    constructor
    · unfold dma_buf_mmap_internal
      simp [h]
    · unfold dma_buf_mmap
      simp [h]
  · intro d pgoff npages hsome hnov hgt
    have hmod : (pgoff + npages) % 2 ^ ULONG_WIDTH = pgoff + npages :=
      Nat.mod_eq_of_lt hnov
    have hnone : d.ops.mmap.isNone = false := by
      rcases hm : d.ops.mmap with _ | v
      · rw [hm] at hsome
        cases hsome
      · rfl
    constructor
    · unfold dma_buf_mmap_internal
      rw [if_neg (by simp), if_neg (by simp [hnone]), hmod, if_pos hgt]
    · unfold dma_buf_mmap
      rw [if_neg (by simp [hnone]), hmod, if_neg (by omega), if_pos hgt]
  · intro d pgoff npages hsome hp hn hov
    have hnone : d.ops.mmap.isNone = false := by
      rcases hm : d.ops.mmap with _ | v
      · rw [hm] at hsome
        cases hsome
      · rfl
    have hmod : (pgoff + npages) % 2 ^ ULONG_WIDTH < pgoff := by
      have h2 : pgoff + npages < 2 * 2 ^ ULONG_WIDTH := by omega
      have := Nat.mod_eq_sub_mod hov
      rw [this, Nat.mod_eq_of_lt (by omega)]
      omega
    unfold dma_buf_mmap
    rw [if_neg (by simp [hnone]), if_pos hmod]

/-- A buffer whose exporter supplies no mmap hook. -/
def buf_no_mmap : dma_buf :=
  { buf_base with ops := { ops_base with mmap := none } }

/-- Witness for C10: a hookless buffer is rejected; a 2-page request on
the 1-page buffer is rejected with -EINVAL through both entry points;
a wrapping offset is rejected by dma_buf_mmap with -EOVERFLOW. -/
theorem c10_witness :
    (buf_no_mmap.ops.mmap = none ∧
      dma_buf_mmap_internal buf_no_mmap 0 1 true = (-EINVAL, []) ∧
      dma_buf_mmap buf_no_mmap 1 0 = (-EINVAL, [])) ∧
    (buf_base.ops.mmap.isSome = true ∧ 0 + 2 < 2 ^ ULONG_WIDTH ∧
      buf_base.size >>> PAGE_SHIFT < 0 + 2 ∧
      dma_buf_mmap_internal buf_base 0 2 true = (-EINVAL, []) ∧
      dma_buf_mmap buf_base 2 0 = (-EINVAL, [])) ∧
    (buf_base.ops.mmap.isSome = true ∧
      2 ^ ULONG_WIDTH - 1 < 2 ^ ULONG_WIDTH ∧ 2 < 2 ^ ULONG_WIDTH ∧
      2 ^ ULONG_WIDTH ≤ 2 ^ ULONG_WIDTH - 1 + 2 ∧
      dma_buf_mmap buf_base 2 (2 ^ ULONG_WIDTH - 1) = (-EOVERFLOW, [])) :=
  ⟨⟨by decide,
    (c10_mmap_rejects_invalid.1 buf_no_mmap 0 1 (by decide)).1,
    (c10_mmap_rejects_invalid.1 buf_no_mmap 0 1 (by decide)).2⟩,
   ⟨by decide, by decide, by decide,
    (c10_mmap_rejects_invalid.2.1 buf_base 0 2 (by decide) (by decide)
      (by decide)).1,
    (c10_mmap_rejects_invalid.2.1 buf_base 0 2 (by decide) (by decide)
      (by decide)).2⟩,
   ⟨by decide, by decide, by decide, by decide,
    c10_mmap_rejects_invalid.2.2 buf_base (2 ^ ULONG_WIDTH - 1) 2 (by decide)
      (by decide) (by decide) (by decide)⟩⟩

/-- C2: a successful dma_buf_map_attachment on a static attachment (no
importer ops) has performed the interruptible unbounded-timeout wait on
the kernel-usage fences and that wait completed; on a dynamic attachment
dma_buf_map_attachment performs no reservation fence wait at all. -/
theorem c2_map_attachment_waits_static_only (dmabuf : dma_buf)
    (attach : dma_buf_attachment) (direction : dma_data_direction)
    (cfg_move_notify : Bool) (wait_outcome : Int)
    (res : Except Int sg_table) (evs : List Event)
    (hmap : dma_buf_map_attachment dmabuf attach direction cfg_move_notify
        wait_outcome = some (res, evs)) :
    (dma_buf_attachment_is_dynamic attach = false →
      ∀ t, res = Except.ok t →
        Event.resv_wait dma_resv_usage.kernel true true ∈ evs ∧
        0 ≤ dma_resv_wait_timeout dmabuf.resv dma_resv_usage.kernel true
              wait_outcome) ∧
    (dma_buf_attachment_is_dynamic attach = true →
      ∀ u i b, Event.resv_wait u i b ∉ evs) := by
  unfold dma_buf_map_attachment at hmap
  constructor
  · intro hstat t hok
    subst hok
    rw [hstat] at hmap
    dsimp only at hmap
    repeat' split at hmap
    all_goals
      first
      | (exfalso
         simp_all
         done)
      | (simp only [Option.some.injEq, Prod.mk.injEq] at hmap
         obtain ⟨hres, hevs⟩ := hmap
         subst hevs
         constructor
         · simp
         · omega)
  · intro hdyn u i b
    rw [hdyn] at hmap
    dsimp only at hmap
    repeat' split at hmap
    all_goals
      first
      | (exfalso
         simp_all
         done)
      | (simp only [Option.some.injEq, Prod.mk.injEq] at hmap
         obtain ⟨hres, hevs⟩ := hmap
         subst hevs
         simp)

/-- A static attachment (created through dma_buf_attach, i.e. without
importer operations). -/
def attach_static : dma_buf_attachment := { id := 5, importer_ops := false }

/-- A dynamic attachment (importer operations supplied). -/
def attach_dynamic : dma_buf_attachment := { id := 6, importer_ops := true }

/-- Witness for C2: mapping buf_base through the static attachment
succeeds after a kernel-usage wait, and through the dynamic attachment
without any wait. -/
theorem c2_witness :
    dma_buf_map_attachment buf_base attach_static
        dma_data_direction.from_device true 5 =
      some (Except.ok { segs := [{ dma_address := 1048576, dma_length := 4096 }] },
        [Event.hook_map, Event.resv_wait dma_resv_usage.kernel true true]) ∧
    ((dma_buf_attachment_is_dynamic attach_static = false →
      ∀ t, (Except.ok { segs := [{ dma_address := 1048576, dma_length := 4096 }] } :
              Except Int sg_table) = Except.ok t →
        Event.resv_wait dma_resv_usage.kernel true true ∈
          [Event.hook_map, Event.resv_wait dma_resv_usage.kernel true true] ∧
        0 ≤ dma_resv_wait_timeout buf_base.resv dma_resv_usage.kernel true 5) ∧
    (dma_buf_attachment_is_dynamic attach_static = true →
      ∀ u i b, Event.resv_wait u i b ∉
        [Event.hook_map, Event.resv_wait dma_resv_usage.kernel true true])) :=
  ⟨rfl,
   c2_map_attachment_waits_static_only buf_base attach_static
     dma_data_direction.from_device true 5
     (Except.ok { segs := [{ dma_address := 1048576, dma_length := 4096 }] })
     [Event.hook_map, Event.resv_wait dma_resv_usage.kernel true true]
     rfl⟩

/-- The page-aligned single-segment table produced by ops_base's map hook. -/
def sg_base : sg_table :=
  { segs := [{ dma_address := 1048576, dma_length := 4096 }] }

/-- C3: when map pins implicitly (pin_on_map) and the implicit pin
succeeded, any failure of dma_buf_map_attachment afterwards — in the
exporter map hook or in the post-map fence wait — unpins before the
error is returned (pin and unpin invocations balance, so no pin leaks)
and unmaps exactly when the map hook had succeeded. -/
theorem c3_map_attachment_error_unwinds (dmabuf : dma_buf)
    (attach : dma_buf_attachment) (direction : dma_data_direction)
    (cfg_move_notify : Bool) (wait_outcome : Int)
    (res : Except Int sg_table) (evs : List Event)
    (hpom : dma_buf_pin_on_map dmabuf attach cfg_move_notify = true)
    (hpin : dmabuf.ops.pin = some 0)
    (hmap : dma_buf_map_attachment dmabuf attach direction cfg_move_notify
        wait_outcome = some (res, evs))
    (e : Int) (herr : res = Except.error e) :
    evs.count Event.hook_pin = evs.count Event.hook_unpin ∧
    Event.hook_unpin ∈ evs ∧
    ((Event.hook_unmap ∈ evs) ↔
      ∃ t, dmabuf.ops.map_dma_buf = some (map_hook_result.table t)) := by
  subst herr
  unfold dma_buf_map_attachment at hmap
  rw [hpom, hpin] at hmap
  simp only [Option.getD_some] at hmap
  repeat' split at hmap
  all_goals
    first
    | (exfalso
       simp_all
       done)
    | (simp only [Option.some.injEq, Prod.mk.injEq] at hmap
       obtain ⟨hres, hevs⟩ := hmap
       subst hevs
       refine ⟨by decide, by decide, ?_⟩
       simp_all)

/-- An exporter table with pin/unpin support whose map hook fails. -/
def ops_pin_failing_map : dma_buf_ops :=
  { ops_base with
      pin := some 0
    , unpin := true
    , map_dma_buf := some (map_hook_result.err (-EINVAL)) }

/-- A buffer exported with ops_pin_failing_map. -/
def buf_pin_failing_map : dma_buf :=
  { buf_base with ops := ops_pin_failing_map }

/-- Witness for C3: a map through a pinning attachment whose exporter map
hook fails yields the error with pin and unpin balanced and no unmap. -/
theorem c3_witness :
    (dma_buf_pin_on_map buf_pin_failing_map attach_static true = true ∧
     buf_pin_failing_map.ops.pin = some 0 ∧
     dma_buf_map_attachment buf_pin_failing_map attach_static
         dma_data_direction.from_device true 5 =
       some (Except.error (-EINVAL),
         [Event.hook_pin, Event.hook_map, Event.hook_unpin])) ∧
    ([Event.hook_pin, Event.hook_map, Event.hook_unpin].count Event.hook_pin =
      [Event.hook_pin, Event.hook_map, Event.hook_unpin].count Event.hook_unpin ∧
    Event.hook_unpin ∈ [Event.hook_pin, Event.hook_map, Event.hook_unpin] ∧
    ((Event.hook_unmap ∈ [Event.hook_pin, Event.hook_map, Event.hook_unpin]) ↔
      ∃ t, buf_pin_failing_map.ops.map_dma_buf =
        some (map_hook_result.table t))) :=
  ⟨⟨by decide, rfl, rfl⟩,
   c3_map_attachment_error_unwinds buf_pin_failing_map attach_static
     dma_data_direction.from_device true 5 (Except.error (-EINVAL))
     [Event.hook_pin, Event.hook_map, Event.hook_unpin] (by decide) rfl rfl
     (-EINVAL) rfl⟩

/-- C8: a successful dma_buf_map_attachment returns the exporter table
unchanged, so when the exporter map hook honours its contract of
page-aligned addresses and lengths the returned region is page-aligned;
in particular a 4096-byte buffer with an empty fence set mapped through
a static attachment yields, for every wait-environment outcome alike
(no fence to wait on, so no blocking), the page-aligned 4096-byte
region. -/
theorem c8_map_attachment_page_aligned (dmabuf : dma_buf)
    (attach : dma_buf_attachment) (direction : dma_data_direction)
    (cfg_move_notify : Bool) (wait_outcome : Int)
    (t : sg_table) (res : Except Int sg_table) (evs : List Event)
    (hhook : dmabuf.ops.map_dma_buf = some (map_hook_result.table t))
    (hal : sg_table_page_aligned t = true)
    (hmap : dma_buf_map_attachment dmabuf attach direction cfg_move_notify
        wait_outcome = some (res, evs))
    (t' : sg_table) (hok : res = Except.ok t') :
    sg_table_page_aligned t' = true ∧
    (∀ w2 : Int,
      dma_buf_map_attachment buf_base attach_static
          dma_data_direction.from_device true w2 =
        some (Except.ok sg_base,
          [Event.hook_map, Event.resv_wait dma_resv_usage.kernel true true]) ∧
      relevant_fences buf_base.resv dma_resv_usage.kernel = [] ∧
      sg_table_page_aligned sg_base = true ∧
      sg_table_length sg_base = 4096 ∧
      buf_base.size = 4096 ∧
      dma_buf_attachment_is_dynamic attach_static = false) := by
  constructor
  · subst hok
    unfold dma_buf_map_attachment at hmap
    rw [hhook] at hmap
    dsimp only at hmap
    repeat' split at hmap
    all_goals
      first
      | (exfalso
         simp_all
         done)
      | (simp only [Option.some.injEq, Prod.mk.injEq, Except.ok.injEq] at hmap
         obtain ⟨hres, hevs⟩ := hmap
         subst hres
         simpa [mangle_sg_table] using hal)
  · exact fun w2 => ⟨rfl, rfl, rfl, rfl, rfl, rfl⟩

/-- Witness for C8: mapping buf_base (whose hook returns the aligned
sg_base) through the static attachment returns an aligned table. -/
theorem c8_witness :
    (buf_base.ops.map_dma_buf = some (map_hook_result.table sg_base) ∧
     sg_table_page_aligned sg_base = true ∧
     dma_buf_map_attachment buf_base attach_static
         dma_data_direction.from_device true 5 =
       some (Except.ok sg_base,
         [Event.hook_map, Event.resv_wait dma_resv_usage.kernel true true])) ∧
    (sg_table_page_aligned sg_base = true ∧
    (∀ w2 : Int,
      dma_buf_map_attachment buf_base attach_static
          dma_data_direction.from_device true w2 =
        some (Except.ok sg_base,
          [Event.hook_map, Event.resv_wait dma_resv_usage.kernel true true]) ∧
      relevant_fences buf_base.resv dma_resv_usage.kernel = [] ∧
      sg_table_page_aligned sg_base = true ∧
      sg_table_length sg_base = 4096 ∧
      buf_base.size = 4096 ∧
      dma_buf_attachment_is_dynamic attach_static = false)) :=
  ⟨⟨rfl, by decide, rfl⟩,
   c8_map_attachment_page_aligned buf_base attach_static
     dma_data_direction.from_device true 5 sg_base (Except.ok sg_base)
     [Event.hook_map, Event.resv_wait dma_resv_usage.kernel true true]
     rfl (by decide) rfl sg_base rfl⟩

/-- Slot invariant of the EventWaiter: at most one armed callback, and an
armed callback implies the slot is marked active. -/
def slot_inv (d : dma_buf_poll_cb_t) : Prop :=
  d.armed ≤ 1 ∧ (d.armed = 1 → d.active = true)

/-- Helper: one poll pass over a slot preserves the slot invariant. -/
theorem slot_inv_poll_dir (d : dma_buf_poll_cb_t) (fp : Bool)
    (h : slot_inv d) : slot_inv (dma_buf_poll_dir d fp).2 := by
  obtain ⟨h1, h2⟩ := h
  unfold dma_buf_poll_dir
  split
  · exact ⟨h1, h2⟩
  · rename_i ha
    have harm : d.armed = 0 := by
      by_cases he : d.armed = 1
      · exact absurd (h2 he) ha
      · omega
    split
    · refine ⟨?_, fun hx => rfl⟩
      show d.armed + 1 ≤ 1
      omega
    · refine ⟨?_, ?_⟩
      · show d.armed ≤ 1
        omega
      · intro hx
        have hx' : d.armed = 1 := hx
        exact absurd (h2 hx') ha

/-- Helper: a firing callback preserves the slot invariant. -/
theorem slot_inv_poll_cb (d : dma_buf_poll_cb_t) (h : slot_inv d) :
    slot_inv (dma_buf_poll_cb d) := by
  obtain ⟨h1, h2⟩ := h
  refine ⟨?_, ?_⟩
  · show d.armed - 1 ≤ 1
    omega
  · intro hx
    have hx' : d.armed - 1 = 1 := hx
    exfalso
    omega

/-- Helper: every state reachable from the freshly exported buffer
satisfies the slot invariant in both directions. -/
theorem poll_reachable_slot_inv (s : poll_state) (h : poll_reachable s) :
    slot_inv s.cb_in ∧ slot_inv s.cb_out := by
  induction h with
  | init =>
    exact ⟨⟨by decide, by decide⟩, ⟨by decide, by decide⟩⟩
  | step hr hs ih =>
    cases hs with
    | poll ri ro ip op =>
      constructor
      · by_cases hri : ri = true <;> simp [dma_buf_poll, hri]
        · exact slot_inv_poll_dir _ _ ih.1
        · exact ih.1
      · by_cases hro : ro = true <;> simp [dma_buf_poll, hro]
        · exact slot_inv_poll_dir _ _ ih.2
        · exact ih.2
    | fire_in hge => exact ⟨slot_inv_poll_cb _ ih.1, ih.2⟩
    | fire_out hge => exact ⟨ih.1, slot_inv_poll_cb _ ih.2⟩

/-- C4: in every reachable EventWaiter state each direction has at most
one armed callback, and a poll request arriving while a direction's
callback is armed (slot active) reports that direction not ready and
leaves the slot — in particular its armed-callback count — unchanged. -/
theorem c4_poll_single_armed_callback (s : poll_state)
    (h : poll_reachable s) :
    (s.cb_in.armed ≤ 1 ∧ s.cb_out.armed ≤ 1) ∧
    (∀ ri ro ip op : Bool,
      (s.cb_in.active = true →
        (dma_buf_poll s ri ro ip op).2.cb_in = s.cb_in ∧
        ((dma_buf_poll s ri ro ip op).1).1 = false) ∧
      (s.cb_out.active = true →
        (dma_buf_poll s ri ro ip op).2.cb_out = s.cb_out ∧
        ((dma_buf_poll s ri ro ip op).1).2 = false)) := by
  have hinv := poll_reachable_slot_inv s h
  refine ⟨⟨hinv.1.1, hinv.2.1⟩, ?_⟩
  intro ri ro ip op
  constructor
  · intro hact
    by_cases hri : ri = true <;>
      simp [dma_buf_poll, dma_buf_poll_dir, hri, hact]
  · intro hact
    by_cases hro : ro = true <;>
      simp [dma_buf_poll, dma_buf_poll_dir, hro, hact]

/-- The EventWaiter state after one read-direction poll with a fence
outstanding: the read slot holds one armed callback. -/
def poll_state_armed : poll_state :=
  (dma_buf_poll init_poll true false true false).2

/-- Witness for C4 at the reachable state with an armed read callback. -/
theorem c4_witness :
    poll_reachable poll_state_armed ∧
    ((poll_state_armed.cb_in.armed ≤ 1 ∧ poll_state_armed.cb_out.armed ≤ 1) ∧
    (∀ ri ro ip op : Bool,
      (poll_state_armed.cb_in.active = true →
        (dma_buf_poll poll_state_armed ri ro ip op).2.cb_in =
          poll_state_armed.cb_in ∧
        ((dma_buf_poll poll_state_armed ri ro ip op).1).1 = false) ∧
      (poll_state_armed.cb_out.active = true →
        (dma_buf_poll poll_state_armed ri ro ip op).2.cb_out =
          poll_state_armed.cb_out ∧
        ((dma_buf_poll poll_state_armed ri ro ip op).1).2 = false))) :=
  ⟨poll_reachable.step poll_reachable.init
     (poll_step.poll init_poll true false true false),
   c4_poll_single_armed_callback poll_state_armed
     (poll_reachable.step poll_reachable.init
       (poll_step.poll init_poll true false true false))⟩

/-- C9: on every buffer satisfying the vmap invariant (stored kernel map
set iff the vmapping counter is positive), dma_buf_vmap and
dma_buf_vunmap preserve the invariant; dma_buf_vmap invokes the exporter
vmap hook exactly on the zero-to-one transition (with the hook present)
and otherwise returns the already-stored map and increments the counter
without any hook call; dma_buf_vunmap invokes the exporter vunmap hook
and clears the stored map exactly when the counter returns to zero, and
otherwise only decrements. -/
theorem c9_vmap_vunmap_counter_invariant (b : dma_buf) (hinv : vmap_inv b) :
    (∀ r b' evs, dma_buf_vmap b = some (r, b', evs) →
      vmap_inv b' ∧
      ((Event.hook_vmap ∈ evs) ↔
        (b.vmapping_counter = 0 ∧ b.ops.vmap.isSome = true)) ∧
      (0 < b.vmapping_counter ∧ b.ops.vmap.isSome = true →
        evs = [] ∧
        b'.vmapping_counter = b.vmapping_counter + 1 ∧
        b'.vmap_ptr = b.vmap_ptr ∧
        ∃ p, b.vmap_ptr = some p ∧ r = Except.ok p)) ∧
    (∀ m b' evs, dma_buf_vunmap b m = some (b', evs) →
      vmap_inv b' ∧
      ((Event.hook_vunmap ∈ evs) ↔
        (b.vmapping_counter = 1 ∧ b.ops.vunmap = true)) ∧
      (b'.vmap_ptr = none ↔ b.vmapping_counter = 1) ∧
      (1 < b.vmapping_counter →
        b'.vmap_ptr = b.vmap_ptr ∧ evs = [] ∧
        b'.vmapping_counter = b.vmapping_counter - 1)) := by
  constructor
  · intro r b' evs hv
    unfold dma_buf_vmap at hv
    cases hov : b.ops.vmap with
    | none =>
      rw [hov] at hv
      simp only [Option.some.injEq, Prod.mk.injEq] at hv
      obtain ⟨hr, hb', hevs⟩ := hv
      subst hb'
      subst hevs
      refine ⟨hinv, by simp [hov], fun hc => absurd hc.2 (by simp [hov])⟩
    | some hook =>
      rw [hov] at hv
      dsimp only at hv
      by_cases hc : b.vmapping_counter ≠ 0
      · rw [if_pos hc] at hv
        cases hp : b.vmap_ptr with
        | none =>
          rw [hp] at hv
          simp at hv
        | some p =>
          rw [hp] at hv
          simp only [Option.some.injEq, Prod.mk.injEq] at hv
          obtain ⟨hr, hb', hevs⟩ := hv
          subst hb'
          subst hevs
          refine ⟨?_, by simp [hc], ?_⟩
          · unfold vmap_inv
            simp [hp]
          · intro h3
            exact ⟨rfl, rfl, rfl, p, rfl, hr.symm⟩
      · rw [if_neg hc] at hv
        have hc0 : b.vmapping_counter = 0 := by omega
        cases hp : b.vmap_ptr with
        | some p =>
          rw [hp] at hv
          simp at hv
        | none =>
          rw [hp] at hv
          cases hook with
          | err e =>
            simp only [Option.some.injEq, Prod.mk.injEq] at hv
            obtain ⟨hr, hb', hevs⟩ := hv
            subst hb'
            subst hevs
            refine ⟨hinv, by simp [hc0, hov], fun h3 => absurd h3.1 (by omega)⟩
          | ok p =>
            simp only [Option.some.injEq, Prod.mk.injEq] at hv
            obtain ⟨hr, hb', hevs⟩ := hv
            subst hb'
            subst hevs
            refine ⟨?_, by simp [hc0, hov], fun h3 => absurd h3.1 (by omega)⟩
            unfold vmap_inv
            simp
  · intro m b' evs hv
    unfold dma_buf_vunmap at hv
    cases hp : b.vmap_ptr with
    | none =>
      rw [hp] at hv
      simp at hv
    | some p =>
      rw [hp] at hv
      dsimp only at hv
      by_cases hc0 : b.vmapping_counter = 0
      · rw [if_pos hc0] at hv
        simp at hv
      · rw [if_neg hc0] at hv
        by_cases hpm : p ≠ m
        · rw [if_pos hpm] at hv
          simp at hv
        · rw [if_neg hpm] at hv
          by_cases hc1 : b.vmapping_counter - 1 = 0
          · rw [if_pos hc1] at hv
            have hceq : b.vmapping_counter = 1 := by omega
            simp only [Option.some.injEq, Prod.mk.injEq] at hv
            obtain ⟨hb', hevs⟩ := hv
            subst hb'
            subst hevs
            refine ⟨?_, ?_, ?_, ?_⟩
            · unfold vmap_inv
              simp
            · cases hvn : b.ops.vunmap <;> simp [hvn, hceq]
            · simp [hceq]
            · intro h4
              exact absurd h4 (by omega)
          · rw [if_neg hc1] at hv
            simp only [Option.some.injEq, Prod.mk.injEq] at hv
            obtain ⟨hb', hevs⟩ := hv
            subst hb'
            subst hevs
            refine ⟨?_, ?_, ?_, ?_⟩
            · unfold vmap_inv
              simp only [hp, Option.isSome_some, true_iff]
              omega
            · constructor
              · intro hx
                exact absurd hx (by simp)
              · intro hx
                exact absurd hx.1 (by omega)
            · simp only [hp]
              constructor
              · intro hx
                exact absurd hx (by simp)
              · intro hx
                exact absurd hx (by omega)
            · intro h4
              exact ⟨rfl, rfl, rfl⟩

/-- Witness for C9 at the freshly exported buffer (counter zero, map
cleared, vmap hook supplied). -/
theorem c9_witness :
    vmap_inv buf_base ∧
    ((∀ r b' evs, dma_buf_vmap buf_base = some (r, b', evs) →
      vmap_inv b' ∧
      ((Event.hook_vmap ∈ evs) ↔
        (buf_base.vmapping_counter = 0 ∧ buf_base.ops.vmap.isSome = true)) ∧
      (0 < buf_base.vmapping_counter ∧ buf_base.ops.vmap.isSome = true →
        evs = [] ∧
        b'.vmapping_counter = buf_base.vmapping_counter + 1 ∧
        b'.vmap_ptr = buf_base.vmap_ptr ∧
        ∃ p, buf_base.vmap_ptr = some p ∧ r = Except.ok p)) ∧
    (∀ m b' evs, dma_buf_vunmap buf_base m = some (b', evs) →
      vmap_inv b' ∧
      ((Event.hook_vunmap ∈ evs) ↔
        (buf_base.vmapping_counter = 1 ∧ buf_base.ops.vunmap = true)) ∧
      (b'.vmap_ptr = none ↔ buf_base.vmapping_counter = 1) ∧
      (1 < buf_base.vmapping_counter →
        b'.vmap_ptr = buf_base.vmap_ptr ∧ evs = [] ∧
        b'.vmapping_counter = buf_base.vmapping_counter - 1))) :=
  ⟨by unfold vmap_inv; decide,
   c9_vmap_vunmap_counter_invariant buf_base (by unfold vmap_inv; decide)⟩

end DmabufSpec
